import Mathlib

set_option linter.unusedVariables false

/-!
Verification of the WWTPSim simulation engine (src/wwtpsim.cpp) against its
natural-language specification.  The water-quality data model, the per-unit
transfer functions, the two-pass propagation step, and the bounded parameter
history are embedded shallowly: C++ `float` arithmetic is modelled over `ℝ`,
`std::map<WaterParameter, float>` as a total function, `std::deque` as a list.
-/

/-- The closed enumeration of water-quality measures (enum WaterParameter). -/
inductive WaterParameter
  | BOD | COD | TSS | NH4 | NO3 | PH | P | OIL | DO | TEMP
  | PATHOGENS | SALINITY | TURBIDITY | EC | ALKALINITY
  | RESIDUAL_CHLORINE | HARDNESS | SULFATES | CHLORIDES | METALS
deriving DecidableEq

open WaterParameter

/-- `class Water`: a total mapping from parameter to value (one entry per key). -/
abbrev Water : Type := WaterParameter → ℝ

/-- `Water::updateParameter`. -/
noncomputable def Water.updateParameter (w : Water) (p : WaterParameter) (v : ℝ) : Water :=
  Function.update w p v

/-- `Water::getParameter`. -/
def Water.getParameter (w : Water) (p : WaterParameter) : ℝ := w p

/-- The default-constructed `Water()` raw-influent profile. -/
noncomputable def defaultWater : Water := fun p =>
  match p with
  | BOD => 300.0 | COD => 600.0 | TSS => 200.0 | NH4 => 50.0 | NO3 => 5.0
  | PH => 6.5 | P => 10.0 | OIL => 30.0 | DO => 2.0 | TEMP => 20.0
  | PATHOGENS => 1e6 | SALINITY => 0.5 | TURBIDITY => 50.0 | EC => 1500.0
  | ALKALINITY => 200.0 | RESIDUAL_CHLORINE => 0.0 | HARDNESS => 250.0
  | SULFATES => 80.0 | CHLORIDES => 100.0 | METALS => 5.0

/-- The per-unit numeric knobs held by `Component` (volume, flowRate, HRT, SRT,
temperature) together with the `removalEfficiencies` override map
(`std::map<WaterParameter, float>`, modelled as a partial function). -/
structure UnitConfig where
  volume : ℝ
  flowRate : ℝ
  HRT : ℝ
  SRT : ℝ
  temperature : ℝ
  removalEfficiencies : WaterParameter → Option ℝ

/-- The `Component` constructor's default member values. -/
def defaultConfig : UnitConfig := UnitConfig.mk 1000 100 10 20 20 (fun _ => none)

/-- `Component::addRemovalEfficiency`: store an override in the map. -/
def UnitConfig.addRemovalEfficiency (cfg : UnitConfig) (p : WaterParameter) (eff : ℝ) :
    UnitConfig :=
  UnitConfig.mk cfg.volume cfg.flowRate cfg.HRT cfg.SRT cfg.temperature
    (Function.update cfg.removalEfficiencies p (some eff))

/-- The Arrhenius-style correction `std::pow(1.035f, T - 20.0f)` used by the
kinetic units; `T` is always read from the inlet water's TEMP entry. -/
noncomputable def tempFactor (T : ℝ) : ℝ := Real.rpow 1.035 (T - 20)

/-- `Component::simulate` (the base-class body, inherited by Inlet, Outlet,
Pump and FlowMeter): `outletWater = inletWater`. -/
def Component.baseSimulate (inletWater : Water) : Water := inletWater

/-- `PrimaryClarifier::simulate`. -/
noncomputable def PrimaryClarifier.simulate (cfg : UnitConfig) (inletWater : Water) : Water :=
  let removalEfficiencyTSS : ℝ := 0.70
  let removalEfficiencyOIL : ℝ := 0.90
  let w1 := Water.updateParameter inletWater TSS
    (inletWater.getParameter TSS * (1 - removalEfficiencyTSS))
  let w2 := Water.updateParameter w1 OIL
    (inletWater.getParameter OIL * (1 - removalEfficiencyOIL))
  Water.updateParameter w2 TURBIDITY (inletWater.getParameter TURBIDITY * 0.8)

/-- `ElectrocoagulationUnit::simulate`. -/
noncomputable def ElectrocoagulationUnit.simulate (cfg : UnitConfig) (inletWater : Water) :
    Water :=
  let removalEfficiencyMETALS : ℝ := 0.80
  let removalEfficiencyTSS : ℝ := 0.60
  let pH_adjustment : ℝ := 0.5
  let EC_adjustment : ℝ := 200.0
  let w1 := Water.updateParameter inletWater METALS
    (inletWater.getParameter METALS * (1 - removalEfficiencyMETALS))
  let w2 := Water.updateParameter w1 TSS
    (inletWater.getParameter TSS * (1 - removalEfficiencyTSS))
  let w3 := Water.updateParameter w2 PH (inletWater.getParameter PH + pH_adjustment)
  Water.updateParameter w3 EC (inletWater.getParameter EC + EC_adjustment)

/-- `Filtration::simulate`. -/
noncomputable def Filtration.simulate (cfg : UnitConfig) (inletWater : Water) : Water :=
  let removalEfficiencyTSS : ℝ := 0.80
  let removalEfficiencyTURB : ℝ := 0.70
  let w1 := Water.updateParameter inletWater TSS
    (inletWater.getParameter TSS * (1 - removalEfficiencyTSS))
  Water.updateParameter w1 TURBIDITY
    (inletWater.getParameter TURBIDITY * (1 - removalEfficiencyTURB))

/-- `AnaerobicAerobicFilter::simulate`. -/
noncomputable def AnaerobicAerobicFilter.simulate (cfg : UnitConfig) (inletWater : Water) :
    Water :=
  let k_bod : ℝ := 0.2
  let k_cod : ℝ := 0.1
  let k_nh4 : ℝ := 0.05
  let tf := tempFactor (inletWater.getParameter TEMP)
  let BOD_in := inletWater.getParameter BOD
  let COD_in := inletWater.getParameter COD
  let NH4_in := inletWater.getParameter NH4
  let BOD_removal := BOD_in * (1 - Real.exp (-(k_bod * cfg.HRT * tf)))
  let COD_removal := COD_in * (1 - Real.exp (-(k_cod * cfg.HRT * tf)))
  let NH4_removal := NH4_in * (1 - Real.exp (-(k_nh4 * cfg.HRT * tf)))
  let w1 := Water.updateParameter inletWater BOD (BOD_in - BOD_removal)
  let w2 := Water.updateParameter w1 COD (COD_in - COD_removal)
  let w3 := Water.updateParameter w2 NH4 (NH4_in - NH4_removal)
  let w4 := Water.updateParameter w3 NO3 (inletWater.getParameter NO3 + NH4_removal * 0.9)
  let DO_consumed := (BOD_removal + COD_removal + NH4_removal * 4.57) * 1.5
  let w5 := Water.updateParameter w4 DO (inletWater.getParameter DO - DO_consumed)
  if w5.getParameter DO < 0 then Water.updateParameter w5 DO 0 else w5

/-- `OzoneDisinfection::simulate`. -/
noncomputable def OzoneDisinfection.simulate (cfg : UnitConfig) (inletWater : Water) : Water :=
  let pathogen_removal := inletWater.getParameter PATHOGENS * 0.999
  let oxidationEfficiency : ℝ := 0.90
  let w1 := Water.updateParameter inletWater PATHOGENS
    (inletWater.getParameter PATHOGENS - pathogen_removal)
  let w2 := Water.updateParameter w1 COD
    (inletWater.getParameter COD * (1 - oxidationEfficiency))
  Water.updateParameter w2 TSS (inletWater.getParameter TSS * (1 - oxidationEfficiency))

/-- `MBR::simulate`. -/
noncomputable def MBR.simulate (cfg : UnitConfig) (inletWater : Water) : Water :=
  let k_bod : ℝ := 0.1
  let k_cod : ℝ := 0.05
  let k_nh4 : ℝ := 0.03
  let tf := tempFactor (inletWater.getParameter TEMP)
  let BOD_in := inletWater.getParameter BOD
  let COD_in := inletWater.getParameter COD
  let NH4_in := inletWater.getParameter NH4
  let BOD_removal := BOD_in * (1 - Real.exp (-(k_bod * cfg.HRT * tf)))
  let COD_removal := COD_in * (1 - Real.exp (-(k_cod * cfg.HRT * tf)))
  let NH4_removal := NH4_in * (1 - Real.exp (-(k_nh4 * cfg.HRT * tf)))
  let w1 := Water.updateParameter inletWater BOD (BOD_in - BOD_removal)
  let w2 := Water.updateParameter w1 COD (COD_in - COD_removal)
  let w3 := Water.updateParameter w2 NH4 (NH4_in - NH4_removal)
  let w4 := Water.updateParameter w3 NO3 (inletWater.getParameter NO3 + NH4_removal * 0.9)
  let DO_consumed := (BOD_removal + COD_removal + NH4_removal * 4.57) * 1.5
  let w5 := Water.updateParameter w4 DO (inletWater.getParameter DO - DO_consumed)
  if w5.getParameter DO < 0 then Water.updateParameter w5 DO 0 else w5

/-- `Biofilter::simulate`. -/
noncomputable def Biofilter.simulate (cfg : UnitConfig) (inletWater : Water) : Water :=
  let k_bod : ℝ := 0.2
  let k_cod : ℝ := 0.1
  let k_nh4 : ℝ := 0.05
  let tf := tempFactor (inletWater.getParameter TEMP)
  let BOD_in := inletWater.getParameter BOD
  let COD_in := inletWater.getParameter COD
  let NH4_in := inletWater.getParameter NH4
  let BOD_removal := BOD_in * (1 - Real.exp (-(k_bod * cfg.HRT * tf)))
  let COD_removal := COD_in * (1 - Real.exp (-(k_cod * cfg.HRT * tf)))
  let NH4_removal := NH4_in * (1 - Real.exp (-(k_nh4 * cfg.HRT * tf)))
  let w1 := Water.updateParameter inletWater BOD (BOD_in - BOD_removal)
  let w2 := Water.updateParameter w1 COD (COD_in - COD_removal)
  let w3 := Water.updateParameter w2 NH4 (NH4_in - NH4_removal)
  let w4 := Water.updateParameter w3 NO3 (inletWater.getParameter NO3 + NH4_removal * 0.9)
  let DO_consumed := (BOD_removal + COD_removal + NH4_removal * 4.57) * 1.5
  let w5 := Water.updateParameter w4 DO (inletWater.getParameter DO - DO_consumed)
  if w5.getParameter DO < 0 then Water.updateParameter w5 DO 0 else w5

/-- `PrimarySedimentationTank::simulate`. -/
noncomputable def PrimarySedimentationTank.simulate (cfg : UnitConfig) (inletWater : Water) :
    Water :=
  let removalEfficiencyTSS : ℝ := 0.60
  let removalEfficiencyBOD : ℝ := 0.35
  let removalEfficiencyPathogen : ℝ := 0.60
  let w1 := Water.updateParameter inletWater TSS
    (inletWater.getParameter TSS * (1 - removalEfficiencyTSS))
  let w2 := Water.updateParameter w1 BOD
    (inletWater.getParameter BOD * (1 - removalEfficiencyBOD))
  let w3 := Water.updateParameter w2 TURBIDITY (inletWater.getParameter TURBIDITY * 0.5)
  Water.updateParameter w3 PATHOGENS
    (inletWater.getParameter PATHOGENS * (1 - removalEfficiencyPathogen))

/-- `AerationTank::simulate`. -/
noncomputable def AerationTank.simulate (cfg : UnitConfig) (inletWater : Water) : Water :=
  let k_bod : ℝ := 0.2
  let k_nh4 : ℝ := 0.1
  let tf := tempFactor (inletWater.getParameter TEMP)
  let BOD_in := inletWater.getParameter BOD
  let NH4_in := inletWater.getParameter NH4
  let BOD_removal := BOD_in * (1 - Real.exp (-(k_bod * cfg.HRT * tf)))
  let NH4_removal := NH4_in * (1 - Real.exp (-(k_nh4 * cfg.HRT * tf)))
  let w1 := Water.updateParameter inletWater BOD (BOD_in - BOD_removal)
  let w2 := Water.updateParameter w1 NH4 (NH4_in - NH4_removal)
  let w3 := Water.updateParameter w2 NO3 (inletWater.getParameter NO3 + NH4_removal * 0.9)
  let DO_consumed := (BOD_removal + NH4_removal * 4.57) * 1.5
  let w4 := Water.updateParameter w3 DO (inletWater.getParameter DO - DO_consumed)
  if w4.getParameter DO < 0 then Water.updateParameter w4 DO 0 else w4

/-- `SecondaryClarifier::simulate`. -/
noncomputable def SecondaryClarifier.simulate (cfg : UnitConfig) (inletWater : Water) : Water :=
  let TSS_removal := inletWater.getParameter TSS * 0.85
  let w1 := Water.updateParameter inletWater TSS (inletWater.getParameter TSS - TSS_removal)
  Water.updateParameter w1 TURBIDITY (inletWater.getParameter TURBIDITY * 0.7)

/-- `ChlorineDisinfectionUnit::simulate`. -/
noncomputable def ChlorineDisinfectionUnit.simulate (cfg : UnitConfig) (inletWater : Water) :
    Water :=
  let pathogen_removal := inletWater.getParameter PATHOGENS * 0.99999
  let w1 := Water.updateParameter inletWater PATHOGENS
    (inletWater.getParameter PATHOGENS - pathogen_removal)
  let w2 := Water.updateParameter w1 RESIDUAL_CHLORINE 0.7
  Water.updateParameter w2 CHLORIDES (inletWater.getParameter CHLORIDES * 1.46)

/-- `NitrificationTank::simulate`. -/
noncomputable def NitrificationTank.simulate (cfg : UnitConfig) (inletWater : Water) : Water :=
  let k_nh4 : ℝ := 0.1
  let tf := tempFactor (inletWater.getParameter TEMP)
  let alkalinityremoval : ℝ := 0.5
  let NH4_in := inletWater.getParameter NH4
  let NO3_in := inletWater.getParameter NO3
  let NH4_removal := NH4_in * (1 - Real.exp (-(k_nh4 * cfg.HRT * tf)))
  let NO3_generated := NH4_removal * 0.9
  let w1 := Water.updateParameter inletWater NH4 (NH4_in - NH4_removal)
  let w2 := Water.updateParameter w1 NO3 (NO3_in + NO3_generated)
  Water.updateParameter w2 ALKALINITY
    (inletWater.getParameter ALKALINITY - alkalinityremoval)

/-- `UVDisinfection::simulate`. -/
noncomputable def UVDisinfection.simulate (cfg : UnitConfig) (inletWater : Water) : Water :=
  let pathogen_removal := inletWater.getParameter PATHOGENS * 0.999
  Water.updateParameter inletWater PATHOGENS
    (inletWater.getParameter PATHOGENS - pathogen_removal)

/-- `AnaerobicFilter::simulate`. -/
noncomputable def AnaerobicFilter.simulate (cfg : UnitConfig) (inletWater : Water) : Water :=
  let COD_in := inletWater.getParameter COD
  let COD_removal := COD_in * 0.65
  Water.updateParameter inletWater COD (COD_in - COD_removal)

/-- `CoagulationFlocculation::simulate`. -/
noncomputable def CoagulationFlocculation.simulate (cfg : UnitConfig) (inletWater : Water) :
    Water :=
  let COD_removal := inletWater.getParameter COD * 0.40
  let TSS_removal := inletWater.getParameter TSS * 0.60
  let w1 := Water.updateParameter inletWater COD (inletWater.getParameter COD - COD_removal)
  Water.updateParameter w1 TSS (inletWater.getParameter TSS - TSS_removal)

/-- `MembraneFiltration::simulate`. -/
noncomputable def MembraneFiltration.simulate (cfg : UnitConfig) (inletWater : Water) : Water :=
  let COD_removal := inletWater.getParameter COD * 0.20
  let TSS_removal := inletWater.getParameter TSS * 0.45
  let pathogen_removal := inletWater.getParameter PATHOGENS * 0.9999
  let w1 := Water.updateParameter inletWater COD (inletWater.getParameter COD - COD_removal)
  let w2 := Water.updateParameter w1 TSS (inletWater.getParameter TSS - TSS_removal)
  Water.updateParameter w2 PATHOGENS
    (inletWater.getParameter PATHOGENS - pathogen_removal)

/-- `ChemicalOxidation::simulate`. -/
noncomputable def ChemicalOxidation.simulate (cfg : UnitConfig) (inletWater : Water) : Water :=
  let COD_removal := inletWater.getParameter COD * 0.70
  let w1 := Water.updateParameter inletWater COD (inletWater.getParameter COD - COD_removal)
  Water.updateParameter w1 TURBIDITY (inletWater.getParameter TURBIDITY * 0.8)

/-- `ActiveSludgeProcess::simulate`. -/
noncomputable def ActiveSludgeProcess.simulate (cfg : UnitConfig) (inletWater : Water) : Water :=
  let k_bod : ℝ := 0.2
  let k_nh4 : ℝ := 0.1
  let tf := tempFactor (inletWater.getParameter TEMP)
  let BOD_in := inletWater.getParameter BOD
  let NH4_in := inletWater.getParameter NH4
  let BOD_removal := BOD_in * (1 - Real.exp (-(k_bod * cfg.HRT * tf)))
  let NH4_removal := NH4_in * (1 - Real.exp (-(k_nh4 * cfg.HRT * tf)))
  let w1 := Water.updateParameter inletWater BOD (BOD_in - BOD_removal)
  let w2 := Water.updateParameter w1 NH4 (NH4_in - NH4_removal)
  let w3 := Water.updateParameter w2 NO3 (inletWater.getParameter NO3 + NH4_removal * 0.9)
  let DO_consumed := (BOD_removal + NH4_removal * 4.57) * 1.5
  let w4 := Water.updateParameter w3 DO (inletWater.getParameter DO - DO_consumed)
  let w5 := if w4.getParameter DO < 0 then Water.updateParameter w4 DO 0 else w4
  let COD_removal := inletWater.getParameter COD * 0.79
  Water.updateParameter w5 COD (inletWater.getParameter COD - COD_removal)

/-- `SludgeDigester::simulate`. -/
noncomputable def SludgeDigester.simulate (cfg : UnitConfig) (inletWater : Water) : Water :=
  let VSS_removal := inletWater.getParameter TSS * 0.55
  Water.updateParameter inletWater TSS (inletWater.getParameter TSS - VSS_removal)

/-- `OilSeparator::simulate`. -/
noncomputable def OilSeparator.simulate (cfg : UnitConfig) (inletWater : Water) : Water :=
  let oil_removal := inletWater.getParameter OIL * 0.90
  let w1 := Water.updateParameter inletWater OIL (inletWater.getParameter OIL - oil_removal)
  Water.updateParameter w1 TURBIDITY (inletWater.getParameter TURBIDITY * 0.9)

/-- `PhosphorusRemovalUnit::simulate`. -/
noncomputable def PhosphorusRemovalUnit.simulate (cfg : UnitConfig) (inletWater : Water) :
    Water :=
  let P_removal := inletWater.getParameter P * 0.75
  let w1 := Water.updateParameter inletWater P (inletWater.getParameter P - P_removal)
  Water.updateParameter w1 TSS (inletWater.getParameter TSS + P_removal * 2)

/-- `DryingBed::simulate`. -/
noncomputable def DryingBed.simulate (cfg : UnitConfig) (inletWater : Water) : Water :=
  let moisture_removal := inletWater.getParameter TSS * 0.95
  Water.updateParameter inletWater TSS (inletWater.getParameter TSS - moisture_removal)

/-- `Pump::simulate`: pass-through. -/
noncomputable def Pump.simulate (cfg : UnitConfig) (inletWater : Water) : Water := inletWater

/-- `FlowMeter::simulate`: pass-through. -/
noncomputable def FlowMeter.simulate (cfg : UnitConfig) (inletWater : Water) : Water :=
  inletWater

/-- `WaterSoftener::simulate`. -/
noncomputable def WaterSoftener.simulate (cfg : UnitConfig) (inletWater : Water) : Water :=
  let hardness_removal := inletWater.getParameter HARDNESS * 0.90
  Water.updateParameter inletWater HARDNESS
    (inletWater.getParameter HARDNESS - hardness_removal)

/-- `ActivatedCarbonFilter::simulate`. -/
noncomputable def ActivatedCarbonFilter.simulate (cfg : UnitConfig) (inletWater : Water) :
    Water :=
  let COD_removal := inletWater.getParameter COD * 0.30
  Water.updateParameter inletWater COD (inletWater.getParameter COD - COD_removal)

/-- `HeatExchanger::simulate`. -/
noncomputable def HeatExchanger.simulate (cfg : UnitConfig) (inletWater : Water) : Water :=
  Water.updateParameter inletWater TEMP 25.0

/-- `MetalsRemovalUnit::simulate`. -/
noncomputable def MetalsRemovalUnit.simulate (cfg : UnitConfig) (inletWater : Water) : Water :=
  let metals_removal := inletWater.getParameter METALS * 0.85
  Water.updateParameter inletWater METALS
    (inletWater.getParameter METALS - metals_removal)

/-- `MembraneFiltrationUnit::simulate`. -/
noncomputable def MembraneFiltrationUnit.simulate (cfg : UnitConfig) (inletWater : Water) :
    Water :=
  let pathogens_removal := inletWater.getParameter PATHOGENS * 0.9999
  let TSS_removal := inletWater.getParameter TSS * 0.99
  let w1 := Water.updateParameter inletWater PATHOGENS
    (inletWater.getParameter PATHOGENS - pathogens_removal)
  Water.updateParameter w1 TSS (inletWater.getParameter TSS - TSS_removal)

/-- `ReverseOsmosisUnit::simulate`. -/
noncomputable def ReverseOsmosisUnit.simulate (cfg : UnitConfig) (inletWater : Water) : Water :=
  let salinity_removal := inletWater.getParameter SALINITY * 0.95
  let EC_removal := inletWater.getParameter EC * 0.95
  let w1 := Water.updateParameter inletWater SALINITY
    (inletWater.getParameter SALINITY - salinity_removal)
  Water.updateParameter w1 EC (inletWater.getParameter EC * 0.05)

/-- A component as threaded by the main loop: its (virtual) `simulate` transfer
function together with its `inletWater` and `outletWater` state.  The rendering
fields (name, shape, position, particles) play no role in the simulation. -/
structure Component where
  simulate : Water → Water
  inletWater : Water
  outletWater : Water

/-- One `components[i]->simulate(deltaTime)` call: store the transfer of the
current inlet as the new outlet (no simulate override reads `deltaTime`). -/
def simulateComponent (c : Component) : Component :=
  Component.mk c.simulate c.inletWater (c.simulate c.inletWater)

/-- First pass of the step loop: `for i, if (i == 0) continue;
components[i]->simulate(deltaTime);` — every component except index 0. -/
def simulatePass : List Component → List Component
  | [] => []
  | c :: rest => c :: rest.map simulateComponent

/-- The body of the second pass starting after `prev`:
`components[i]->inletWater = components[i-1]->outletWater`. -/
def propagateFrom (prev : Component) : List Component → List Component
  | [] => []
  | d :: rest =>
    let d2 := Component.mk d.simulate prev.outletWater d.outletWater
    d2 :: propagateFrom d2 rest

/-- Second pass of the step loop: for `i = 1 .. n-1` copy outlet `i-1` into
inlet `i`. -/
def propagatePass : List Component → List Component
  | [] => []
  | c :: rest => c :: propagateFrom c rest

/-- One simulation tick of the main loop (`if (isSimulating) { ... }`):
simulate every non-index-0 component, then propagate outlets forward. -/
def step (cs : List Component) : List Component := propagatePass (simulatePass cs)

/-- `struct ParameterHistory`: bounded series of recent values. -/
structure ParameterHistory where
  values : List ℝ
  maxSize : ℕ

/-- `ParameterHistory::addValue`: `if (values.size() >= maxSize)
values.pop_front(); values.push_back(val);`. -/
def ParameterHistory.addValue (h : ParameterHistory) (val : ℝ) : ParameterHistory :=
  ParameterHistory.mk
    ((if h.maxSize ≤ h.values.length then h.values.tail else h.values) ++ [val]) h.maxSize

/-- A concrete pass-through component (an `Inlet`, say) holding the default
water on both sides, used to instantiate pipeline statements. -/
noncomputable def sampleComponent : Component :=
  Component.mk Component.baseSimulate defaultWater defaultWater

/-- A concrete terminal component whose stored outlet (BOD zeroed) differs from
its stored inlet, used to observe whether `step` touches the last component. -/
noncomputable def sinkPre : Component :=
  Component.mk Component.baseSimulate defaultWater (Water.updateParameter defaultWater BOD 0)

/-- The default config after `addRemovalEfficiency(TSS, 0.5)`: a 50% override
for suspended solids. -/
noncomputable def overrideConfig : UnitConfig :=
  defaultConfig.addRemovalEfficiency TSS 0.5

/-- The default water with alkalinity lowered to zero (still a fully
non-negative sample). -/
noncomputable def lowAlkalinityWater : Water :=
  Water.updateParameter defaultWater ALKALINITY 0

/-! ## Basic lemmas about the embedding -/

theorem updateParameter_self (w : Water) (p : WaterParameter) (v : ℝ) :
    Water.updateParameter w p v p = v := by
  simp [Water.updateParameter]

theorem updateParameter_other (w : Water) (p q : WaterParameter) (v : ℝ) (h : q ≠ p) :
    Water.updateParameter w p v q = w q := by
  simp [Water.updateParameter, Function.update_noteq h]

theorem updateParameter_nonneg {w : Water} {p : WaterParameter} {v : ℝ}
    (hw : ∀ r, 0 ≤ w r) (hv : 0 ≤ v) (q : WaterParameter) :
    0 ≤ Water.updateParameter w p v q := by
  by_cases h : q = p
  · subst h; simpa [updateParameter_self] using hv
  · rw [updateParameter_other w p q v h]; exact hw q

theorem tempFactor_pos (T : ℝ) : 0 < tempFactor T :=
  Real.rpow_pos_of_pos (by norm_num) _

theorem tempFactor_at20 : tempFactor 20 = 1 := by
  simp [tempFactor, Real.rpow_zero]

theorem exp_neg_le_one {a : ℝ} (ha : 0 ≤ a) : Real.exp (-a) ≤ 1 := by
  rw [Real.exp_le_one_iff]; linarith

/-- `x - x*(1 - E) = x*E ≥ 0` whenever both factors are non-negative. -/
theorem residual_nonneg {x E : ℝ} (hx : 0 ≤ x) (hE : 0 ≤ E) : 0 ≤ x - x * (1 - E) := by
  nlinarith

/-- A removed amount `x*(1-E)` is non-negative when `E ≤ 1` and `0 ≤ x`. -/
theorem removal_nonneg {x E : ℝ} (hx : 0 ≤ x) (hE : E ≤ 1) : 0 ≤ x * (1 - E) := by
  nlinarith

/-- The code's post-hoc clamp `if v < 0 then 0 else v` equals `max 0 v`. -/
theorem clamp_eq_max (x : ℝ) : (if x < 0 then (0 : ℝ) else x) = max 0 x := by
  rcases lt_or_le x 0 with h | h
  · rw [if_pos h, max_eq_left h.le]
  · rw [if_neg (not_lt.mpr h), max_eq_right h]

theorem defaultWater_nonneg : ∀ p, 0 ≤ defaultWater p := by
  intro p; cases p <;> norm_num [defaultWater]

/-! ## Lemmas about the two-pass step -/

theorem propagateFrom_map_outlet (prev : Component) (cs : List Component) :
    (propagateFrom prev cs).map Component.outletWater = cs.map Component.outletWater := by
  induction cs generalizing prev with
  | nil => rfl
  | cons d rest ih => simp [propagateFrom, ih]

theorem step_map_outlet (c : Component) (rest : List Component) :
    (step (c :: rest)).map Component.outletWater
      = c.outletWater :: rest.map (fun d => d.simulate d.inletWater) := by
  simp [step, simulatePass, propagatePass, propagateFrom_map_outlet, simulateComponent,
    Function.comp]

/-! ## Lemmas about the bounded history -/

theorem addValue_maxSize (h : ParameterHistory) (v : ℝ) :
    (h.addValue v).maxSize = h.maxSize := rfl

/-- FIFO characterisation of a run of `addValue` calls: starting below capacity
`c ≥ 1`, the stored series is always the suffix of the full arrival stream that
fits in the capacity. -/
theorem addValue_foldl (c : ℕ) (hc : 1 ≤ c) :
    ∀ (xs vs : List ℝ), vs.length ≤ c →
      (List.foldl ParameterHistory.addValue (ParameterHistory.mk vs c) xs).values
        = (vs ++ xs).drop (vs.length + xs.length - c) := by
  intro xs
  induction xs with
  | nil =>
    intro vs hvs
    simp [Nat.sub_eq_zero_of_le hvs]
  | cons x t ih =>
    intro vs hvs
    rw [List.foldl_cons]
    by_cases hfull : c ≤ vs.length
    · have hlen : vs.length = c := le_antisymm hvs hfull
      obtain ⟨a, vs', rfl⟩ : ∃ a vs', vs = a :: vs' := by
        cases vs with
        | nil => simp at hlen; omega
        | cons a vs' => exact ⟨a, vs', rfl⟩
      have hfull2 : c ≤ vs'.length + 1 := by simpa using hfull
      have haddv : ParameterHistory.addValue (ParameterHistory.mk (a :: vs') c) x
          = ParameterHistory.mk (vs' ++ [x]) c := by
        simp [ParameterHistory.addValue, hfull2]
      rw [haddv]
      have hlen' : (vs' ++ [x]).length ≤ c := by
        simp at hlen ⊢; omega
      rw [ih (vs' ++ [x]) hlen']
      have h1 : (vs' ++ [x]).length + t.length - c = t.length := by
        simp at hlen ⊢; omega
      have h2 : (a :: vs').length + (x :: t).length - c = t.length + 1 := by
        simp at hlen ⊢; omega
      rw [h1, h2]
      simp [List.drop_succ_cons, List.append_assoc]
    · push_neg at hfull
      have haddv : ParameterHistory.addValue (ParameterHistory.mk vs c) x
          = ParameterHistory.mk (vs ++ [x]) c := by
        simp [ParameterHistory.addValue, Nat.not_le.mpr hfull]
      rw [haddv]
      have hlen' : (vs ++ [x]).length ≤ c := by simp; omega
      rw [ih (vs ++ [x]) hlen']
      have h1 : (vs ++ [x]).length + t.length = vs.length + (x :: t).length := by
        simp; omega
      rw [List.append_assoc, h1]
      simp

/-! ## Claim theorems -/

/-- C3: after one `step` over a chain Source, A, B, C, Sink whose links were
propagated (B's inlet holds A's pre-step outlet), B's new outlet is B's
transfer function applied to A's outlet as it was before the step began — the
simulate pass runs over every unit before any outlet is propagated, so there is
no same-tick cascading. -/
theorem step_no_same_tick_cascading (src a b c snk : Component)
    (hsync : b.inletWater = a.outletWater) :
    ((step [src, a, b, c, snk]).get? 2).map Component.outletWater
      = some (b.simulate a.outletWater) := by
  simp [step, simulatePass, propagatePass, propagateFrom, simulateComponent, hsync]

/-- Witness for C3 at a concrete five-component chain of pass-through units. -/
theorem step_no_same_tick_cascading_witness :
    ((step [sampleComponent, sampleComponent, sampleComponent, sampleComponent,
        sampleComponent]).get? 2).map Component.outletWater
      = some (Component.baseSimulate defaultWater) :=
  step_no_same_tick_cascading sampleComponent sampleComponent sampleComponent
    sampleComponent sampleComponent rfl

/-- C4 counterexample: the claim says the Sink is never simulated, so a `step`
could not change the last component's stored outlet; but the simulate loop only
skips index 0, so the Sink's outlet is overwritten (with its inherited
pass-through transfer of its inlet).  Here the pre-step sink outlet has BOD 0,
and after `step` it holds BOD 300. -/
theorem sink_is_simulated :
    ((step [sampleComponent, sinkPre]).map Component.outletWater).get? 1
      ≠ some sinkPre.outletWater := by
  intro h
  have h2 : defaultWater = Water.updateParameter defaultWater BOD 0 := by
    simpa [step, simulatePass, propagatePass, propagateFrom, simulateComponent,
      sampleComponent, sinkPre, Component.baseSimulate] using h
  have h3 : defaultWater BOD = Water.updateParameter defaultWater BOD 0 BOD :=
    congrFun h2 BOD
  rw [updateParameter_self] at h3
  norm_num [defaultWater] at h3

/-- C4 amended: during every `step`, the transfer function is invoked for every
component except the Source (index 0), in chain order — including the Sink,
whose inherited transfer is the identity copy of its inlet; the Source's outlet
is left exactly as last externally set. -/
theorem step_simulates_all_but_source (c : Component) (rest : List Component) :
    (step (c :: rest)).map Component.outletWater
      = c.outletWater :: rest.map (fun d => d.simulate d.inletWater) :=
  step_map_outlet c rest

/-- C8: a parameter history series never exceeds its configured capacity, and
after appending any stream of values the series is exactly the last `capacity`
values in arrival order (strict FIFO, oldest evicted first, most-recent-last). -/
theorem history_capacity_fifo (c : ℕ) (xs : List ℝ) (hc : 1 ≤ c) :
    (List.foldl ParameterHistory.addValue (ParameterHistory.mk [] c) xs).values
        = xs.drop (xs.length - c)
      ∧ (List.foldl ParameterHistory.addValue (ParameterHistory.mk [] c) xs).values.length
        ≤ c := by
  have h := addValue_foldl c hc xs [] (by simp)
  simp only [List.nil_append, List.length_nil, Nat.zero_add] at h
  refine ⟨h, ?_⟩
  rw [h, List.length_drop]
  omega

/-- Witness for C8: capacity 2, three arrivals — the series keeps the last two. -/
theorem history_capacity_fifo_witness :
    (List.foldl ParameterHistory.addValue (ParameterHistory.mk [] 2) [(1 : ℝ), 2, 3]).values
      = [(2 : ℝ), 3] := by
  have h := (history_capacity_fifo 2 [(1 : ℝ), 2, 3] (by norm_num)).1
  simpa using h

/-- C10: every kinetic-family transfer function reads its temperature
correction from the inlet water's TEMP entry, never from the component's own
`temperature` member, so two runs on the same inlet with different configured
temperatures produce identical outlets. -/
theorem kinetic_units_ignore_configured_temperature (v f h s t1 t2 : ℝ)
    (re : WaterParameter → Option ℝ) (w : Water) :
    AerationTank.simulate (UnitConfig.mk v f h s t1 re) w
        = AerationTank.simulate (UnitConfig.mk v f h s t2 re) w
      ∧ Biofilter.simulate (UnitConfig.mk v f h s t1 re) w
        = Biofilter.simulate (UnitConfig.mk v f h s t2 re) w
      ∧ AnaerobicAerobicFilter.simulate (UnitConfig.mk v f h s t1 re) w
        = AnaerobicAerobicFilter.simulate (UnitConfig.mk v f h s t2 re) w
      ∧ MBR.simulate (UnitConfig.mk v f h s t1 re) w
        = MBR.simulate (UnitConfig.mk v f h s t2 re) w
      ∧ ActiveSludgeProcess.simulate (UnitConfig.mk v f h s t1 re) w
        = ActiveSludgeProcess.simulate (UnitConfig.mk v f h s t2 re) w
      ∧ NitrificationTank.simulate (UnitConfig.mk v f h s t1 re) w
        = NitrificationTank.simulate (UnitConfig.mk v f h s t2 re) w :=
  ⟨rfl, rfl, rfl, rfl, rfl, rfl⟩

/-- C1 counterexample: with a stored override of 0.5 for TSS, the Primary
Clarifier still removes its built-in 70% (outlet TSS = 200·0.3 = 60), not the
overridden 50% (which would give 100): the override map is never consulted. -/
theorem override_ignored_counterexample :
    PrimaryClarifier.simulate overrideConfig defaultWater TSS = 60
      ∧ overrideConfig.removalEfficiencies TSS = some 0.5
      ∧ PrimaryClarifier.simulate overrideConfig defaultWater TSS
          ≠ defaultWater TSS * (1 - 0.5) := by
  have hval : PrimaryClarifier.simulate overrideConfig defaultWater TSS = 60 := by
    simp [PrimaryClarifier.simulate, Water.updateParameter, Function.update_apply,
      Water.getParameter, defaultWater]
    norm_num
  refine ⟨hval, ?_, ?_⟩
  · simp [overrideConfig, defaultConfig, UnitConfig.addRemovalEfficiency]
  · rw [hval]; norm_num [defaultWater]

/-- C1 amended: the `removalEfficiencies` overrides stored in a unit's config
are recorded but never consulted by any physical-separation transfer function:
the outlet is always computed from the unit's built-in constants (e.g. the
Primary Clarifier always removes 70% TSS and 90% OIL), so the simulate result
is identical under any two override maps. -/
theorem physical_separation_ignores_overrides (v f h s t : ℝ)
    (re1 re2 : WaterParameter → Option ℝ) (w : Water) :
    (PrimaryClarifier.simulate (UnitConfig.mk v f h s t re1) w
        = PrimaryClarifier.simulate (UnitConfig.mk v f h s t re2) w)
      ∧ (PrimarySedimentationTank.simulate (UnitConfig.mk v f h s t re1) w
        = PrimarySedimentationTank.simulate (UnitConfig.mk v f h s t re2) w)
      ∧ (SecondaryClarifier.simulate (UnitConfig.mk v f h s t re1) w
        = SecondaryClarifier.simulate (UnitConfig.mk v f h s t re2) w)
      ∧ (Filtration.simulate (UnitConfig.mk v f h s t re1) w
        = Filtration.simulate (UnitConfig.mk v f h s t re2) w)
      ∧ (OilSeparator.simulate (UnitConfig.mk v f h s t re1) w
        = OilSeparator.simulate (UnitConfig.mk v f h s t re2) w)
      ∧ (MembraneFiltration.simulate (UnitConfig.mk v f h s t re1) w
        = MembraneFiltration.simulate (UnitConfig.mk v f h s t re2) w)
      ∧ (MembraneFiltrationUnit.simulate (UnitConfig.mk v f h s t re1) w
        = MembraneFiltrationUnit.simulate (UnitConfig.mk v f h s t re2) w)
      ∧ (SludgeDigester.simulate (UnitConfig.mk v f h s t re1) w
        = SludgeDigester.simulate (UnitConfig.mk v f h s t re2) w)
      ∧ (DryingBed.simulate (UnitConfig.mk v f h s t re1) w
        = DryingBed.simulate (UnitConfig.mk v f h s t re2) w)
      ∧ PrimaryClarifier.simulate (UnitConfig.mk v f h s t re1) w TSS = w TSS * (1 - 0.70)
      ∧ PrimaryClarifier.simulate (UnitConfig.mk v f h s t re1) w OIL = w OIL * (1 - 0.90) := by
  refine ⟨rfl, rfl, rfl, rfl, rfl, rfl, rfl, rfl, rfl, ?_, ?_⟩
  · simp [PrimaryClarifier.simulate, Water.updateParameter, Function.update_apply,
      Water.getParameter]
  · simp [PrimaryClarifier.simulate, Water.updateParameter, Function.update_apply,
      Water.getParameter]

/-- C7: an Aeration Tank with its default HRT of 10 h, fed the default water
(BOD 300, TEMP 20 so the temperature factor is 1), produces an outlet BOD of
exactly `300·exp(-0.2·10) = 300·exp(-2)`, which lies within 0.1 of 40.6. -/
theorem aeration_default_bod_scenario :
    AerationTank.simulate defaultConfig defaultWater BOD = 300 * Real.exp (-2)
      ∧ |AerationTank.simulate defaultConfig defaultWater BOD - 40.6| < 0.1 := by
  have hval : AerationTank.simulate defaultConfig defaultWater BOD = 300 * Real.exp (-2) := by
    have h20 : defaultWater TEMP = 20 := by norm_num [defaultWater]
    simp only [AerationTank.simulate, Water.getParameter, h20, tempFactor_at20,
      defaultConfig]
    simp [Water.updateParameter, Function.update_apply, ite_apply, defaultWater]
    norm_num
    ring
  refine ⟨hval, ?_⟩
  rw [hval]
  have h2 : Real.exp 2 = Real.exp 1 * Real.exp 1 := by
    rw [← Real.exp_add]; norm_num
  have hgt := Real.exp_one_gt_d9
  have hlt := Real.exp_one_lt_d9
  have hexp2l : (7.389056 : ℝ) < Real.exp 2 := by rw [h2]; nlinarith [Real.exp_pos 1]
  have hexp2u : Real.exp 2 < 7.3890561 := by rw [h2]; nlinarith [Real.exp_pos 1]
  have hpos : (0 : ℝ) < Real.exp 2 := Real.exp_pos 2
  have htpos : (0 : ℝ) < (Real.exp 2)⁻¹ := inv_pos.mpr hpos
  have hm : Real.exp 2 * (Real.exp 2)⁻¹ = 1 := mul_inv_cancel₀ hpos.ne'
  have hen : Real.exp (-2 : ℝ) = (Real.exp 2)⁻¹ := Real.exp_neg 2
  rw [hen, abs_lt]
  constructor
  · nlinarith [mul_lt_mul_of_pos_right hexp2u htpos]
  · nlinarith [mul_lt_mul_of_pos_right hexp2l htpos]

/-- The clamped value `if x < 0 then 0 else x` is never negative. -/
theorem clamp_nonneg (x : ℝ) : 0 ≤ if x < 0 then (0 : ℝ) else x := by
  split_ifs with h
  · exact le_refl 0
  · exact not_lt.mp h

/-- C5 counterexample: the Nitrification Tank removes ammonium but never
touches dissolved oxygen, so on the default water its outlet DO stays at 2,
while the claimed stoichiometric formula (debit of
`(BOD_removed + COD_removed + 4.57·NH4_removed)·1.5`, clamped at zero) would
give 0. -/
theorem oxygen_debit_counterexample :
    NitrificationTank.simulate defaultConfig defaultWater DO
      ≠ max 0 (defaultWater DO -
          ((defaultWater BOD - NitrificationTank.simulate defaultConfig defaultWater BOD)
            + (defaultWater COD - NitrificationTank.simulate defaultConfig defaultWater COD)
            + 4.57 * (defaultWater NH4
                - NitrificationTank.simulate defaultConfig defaultWater NH4)) * 1.5) := by
  have h20 : defaultWater TEMP = 20 := by norm_num [defaultWater]
  have hDO : NitrificationTank.simulate defaultConfig defaultWater DO = 2 := by
    simp [NitrificationTank.simulate, Water.updateParameter, Function.update_apply,
      Water.getParameter, defaultWater]
    norm_num
  have hBOD : NitrificationTank.simulate defaultConfig defaultWater BOD = 300 := by
    simp [NitrificationTank.simulate, Water.updateParameter, Function.update_apply,
      Water.getParameter, defaultWater]
    norm_num
  have hCOD : NitrificationTank.simulate defaultConfig defaultWater COD = 600 := by
    simp [NitrificationTank.simulate, Water.updateParameter, Function.update_apply,
      Water.getParameter, defaultWater]
    norm_num
  have hNH4 : NitrificationTank.simulate defaultConfig defaultWater NH4
      = 50 - 50 * (1 - Real.exp (-1)) := by
    simp only [NitrificationTank.simulate, Water.getParameter, h20, tempFactor_at20,
      defaultConfig]
    simp [Water.updateParameter, Function.update_apply, defaultWater]
    norm_num
  have hd1 : defaultWater DO = 2 := by norm_num [defaultWater]
  have hd2 : defaultWater BOD = 300 := by norm_num [defaultWater]
  have hd3 : defaultWater COD = 600 := by norm_num [defaultWater]
  have hd4 : defaultWater NH4 = 50 := by norm_num [defaultWater]
  intro hcontra
  rw [hDO, hBOD, hCOD, hNH4, hd1, hd2, hd3, hd4] at hcontra
  have he : Real.exp (-1 : ℝ) < 1 / 2 := by
    have h1 : (2 : ℝ) < Real.exp 1 := by nlinarith [Real.exp_one_gt_d9]
    have h3 : (0 : ℝ) < Real.exp 1 := Real.exp_pos 1
    have hinv : (0 : ℝ) < (Real.exp 1)⁻¹ := inv_pos.mpr h3
    have hm : Real.exp 1 * (Real.exp 1)⁻¹ = 1 := mul_inv_cancel₀ h3.ne'
    rw [Real.exp_neg]
    nlinarith [mul_lt_mul_of_pos_right h1 hinv]
  have hX : (2 : ℝ) - ((300 - 300) + (600 - 600)
      + 4.57 * (50 - (50 - 50 * (1 - Real.exp (-1))))) * 1.5 < 0 := by nlinarith
  rw [max_eq_left hX.le] at hcontra
  norm_num at hcontra

/-- C5 amended: for the Aeration Tank, Biofilter, Anaerobic-Aerobic Filter and
MBR, the outlet dissolved oxygen is the inlet value decremented by
`(BOD_removed + COD_removed + 4.57·NH4_removed)·1.5` and clamped at zero
(removed amounts measured inlet minus outlet; the Aeration Tank removes no
COD).  The Active Sludge Process instead debits only
`(BOD_removed + 4.57·NH4_removed)·1.5`, excluding its own COD removal, and the
Nitrification Tank leaves dissolved oxygen untouched. -/
theorem kinetic_oxygen_debit (cfg : UnitConfig) (w : Water) :
    (AerationTank.simulate cfg w DO
      = max 0 (w DO - ((w BOD - AerationTank.simulate cfg w BOD)
          + (w COD - AerationTank.simulate cfg w COD)
          + 4.57 * (w NH4 - AerationTank.simulate cfg w NH4)) * 1.5))
    ∧ (Biofilter.simulate cfg w DO
      = max 0 (w DO - ((w BOD - Biofilter.simulate cfg w BOD)
          + (w COD - Biofilter.simulate cfg w COD)
          + 4.57 * (w NH4 - Biofilter.simulate cfg w NH4)) * 1.5))
    ∧ (AnaerobicAerobicFilter.simulate cfg w DO
      = max 0 (w DO - ((w BOD - AnaerobicAerobicFilter.simulate cfg w BOD)
          + (w COD - AnaerobicAerobicFilter.simulate cfg w COD)
          + 4.57 * (w NH4 - AnaerobicAerobicFilter.simulate cfg w NH4)) * 1.5))
    ∧ (MBR.simulate cfg w DO
      = max 0 (w DO - ((w BOD - MBR.simulate cfg w BOD)
          + (w COD - MBR.simulate cfg w COD)
          + 4.57 * (w NH4 - MBR.simulate cfg w NH4)) * 1.5))
    ∧ (ActiveSludgeProcess.simulate cfg w DO
      = max 0 (w DO - ((w BOD - ActiveSludgeProcess.simulate cfg w BOD)
          + 4.57 * (w NH4 - ActiveSludgeProcess.simulate cfg w NH4)) * 1.5))
    ∧ NitrificationTank.simulate cfg w DO = w DO := by
  refine ⟨?_, ?_, ?_, ?_, ?_, ?_⟩
  · have hB : AerationTank.simulate cfg w BOD
        = w BOD - w BOD * (1 - Real.exp (-(0.2 * cfg.HRT * tempFactor (w TEMP)))) := by
      simp [AerationTank.simulate, Water.updateParameter, Function.update_apply,
        Water.getParameter, ite_apply]
    have hC : AerationTank.simulate cfg w COD = w COD := by
      simp [AerationTank.simulate, Water.updateParameter, Function.update_apply,
        Water.getParameter, ite_apply]
    have hN : AerationTank.simulate cfg w NH4
        = w NH4 - w NH4 * (1 - Real.exp (-(0.1 * cfg.HRT * tempFactor (w TEMP)))) := by
      simp [AerationTank.simulate, Water.updateParameter, Function.update_apply,
        Water.getParameter, ite_apply]
    have hD : AerationTank.simulate cfg w DO
        = if w DO - (w BOD * (1 - Real.exp (-(0.2 * cfg.HRT * tempFactor (w TEMP))))
              + w NH4 * (1 - Real.exp (-(0.1 * cfg.HRT * tempFactor (w TEMP)))) * 4.57) * 1.5
              < 0
          then 0
          else w DO - (w BOD * (1 - Real.exp (-(0.2 * cfg.HRT * tempFactor (w TEMP))))
              + w NH4 * (1 - Real.exp (-(0.1 * cfg.HRT * tempFactor (w TEMP)))) * 4.57)
              * 1.5 := by
      simp [AerationTank.simulate, Water.updateParameter, Function.update_apply,
        Water.getParameter, ite_apply]
    rw [hB, hC, hN, hD, clamp_eq_max]
    congr 1
    ring
  · have hB : Biofilter.simulate cfg w BOD
        = w BOD - w BOD * (1 - Real.exp (-(0.2 * cfg.HRT * tempFactor (w TEMP)))) := by
      simp [Biofilter.simulate, Water.updateParameter, Function.update_apply,
        Water.getParameter, ite_apply]
    have hC : Biofilter.simulate cfg w COD
        = w COD - w COD * (1 - Real.exp (-(0.1 * cfg.HRT * tempFactor (w TEMP)))) := by
      simp [Biofilter.simulate, Water.updateParameter, Function.update_apply,
        Water.getParameter, ite_apply]
    have hN : Biofilter.simulate cfg w NH4
        = w NH4 - w NH4 * (1 - Real.exp (-(0.05 * cfg.HRT * tempFactor (w TEMP)))) := by
      simp [Biofilter.simulate, Water.updateParameter, Function.update_apply,
        Water.getParameter, ite_apply]
    have hD : Biofilter.simulate cfg w DO
        = if w DO - (w BOD * (1 - Real.exp (-(0.2 * cfg.HRT * tempFactor (w TEMP))))
              + w COD * (1 - Real.exp (-(0.1 * cfg.HRT * tempFactor (w TEMP))))
              + w NH4 * (1 - Real.exp (-(0.05 * cfg.HRT * tempFactor (w TEMP)))) * 4.57) * 1.5
              < 0
          then 0
          else w DO - (w BOD * (1 - Real.exp (-(0.2 * cfg.HRT * tempFactor (w TEMP))))
              + w COD * (1 - Real.exp (-(0.1 * cfg.HRT * tempFactor (w TEMP))))
              + w NH4 * (1 - Real.exp (-(0.05 * cfg.HRT * tempFactor (w TEMP)))) * 4.57)
              * 1.5 := by
      simp [Biofilter.simulate, Water.updateParameter, Function.update_apply,
        Water.getParameter, ite_apply]
    rw [hB, hC, hN, hD, clamp_eq_max]
    congr 1
    ring
  · have hB : AnaerobicAerobicFilter.simulate cfg w BOD
        = w BOD - w BOD * (1 - Real.exp (-(0.2 * cfg.HRT * tempFactor (w TEMP)))) := by
      simp [AnaerobicAerobicFilter.simulate, Water.updateParameter, Function.update_apply,
        Water.getParameter, ite_apply]
    have hC : AnaerobicAerobicFilter.simulate cfg w COD
        = w COD - w COD * (1 - Real.exp (-(0.1 * cfg.HRT * tempFactor (w TEMP)))) := by
      simp [AnaerobicAerobicFilter.simulate, Water.updateParameter, Function.update_apply,
        Water.getParameter, ite_apply]
    have hN : AnaerobicAerobicFilter.simulate cfg w NH4
        = w NH4 - w NH4 * (1 - Real.exp (-(0.05 * cfg.HRT * tempFactor (w TEMP)))) := by
      simp [AnaerobicAerobicFilter.simulate, Water.updateParameter, Function.update_apply,
        Water.getParameter, ite_apply]
    have hD : AnaerobicAerobicFilter.simulate cfg w DO
        = if w DO - (w BOD * (1 - Real.exp (-(0.2 * cfg.HRT * tempFactor (w TEMP))))
              + w COD * (1 - Real.exp (-(0.1 * cfg.HRT * tempFactor (w TEMP))))
              + w NH4 * (1 - Real.exp (-(0.05 * cfg.HRT * tempFactor (w TEMP)))) * 4.57) * 1.5
              < 0
          then 0
          else w DO - (w BOD * (1 - Real.exp (-(0.2 * cfg.HRT * tempFactor (w TEMP))))
              + w COD * (1 - Real.exp (-(0.1 * cfg.HRT * tempFactor (w TEMP))))
              + w NH4 * (1 - Real.exp (-(0.05 * cfg.HRT * tempFactor (w TEMP)))) * 4.57)
              * 1.5 := by
      simp [AnaerobicAerobicFilter.simulate, Water.updateParameter, Function.update_apply,
        Water.getParameter, ite_apply]
    rw [hB, hC, hN, hD, clamp_eq_max]
    congr 1
    ring
  · have hB : MBR.simulate cfg w BOD
        = w BOD - w BOD * (1 - Real.exp (-(0.1 * cfg.HRT * tempFactor (w TEMP)))) := by
      simp [MBR.simulate, Water.updateParameter, Function.update_apply,
        Water.getParameter, ite_apply]
    have hC : MBR.simulate cfg w COD
        = w COD - w COD * (1 - Real.exp (-(0.05 * cfg.HRT * tempFactor (w TEMP)))) := by
      simp [MBR.simulate, Water.updateParameter, Function.update_apply,
        Water.getParameter, ite_apply]
    have hN : MBR.simulate cfg w NH4
        = w NH4 - w NH4 * (1 - Real.exp (-(0.03 * cfg.HRT * tempFactor (w TEMP)))) := by
      simp [MBR.simulate, Water.updateParameter, Function.update_apply,
        Water.getParameter, ite_apply]
    have hD : MBR.simulate cfg w DO
        = if w DO - (w BOD * (1 - Real.exp (-(0.1 * cfg.HRT * tempFactor (w TEMP))))
              + w COD * (1 - Real.exp (-(0.05 * cfg.HRT * tempFactor (w TEMP))))
              + w NH4 * (1 - Real.exp (-(0.03 * cfg.HRT * tempFactor (w TEMP)))) * 4.57) * 1.5
              < 0
          then 0
          else w DO - (w BOD * (1 - Real.exp (-(0.1 * cfg.HRT * tempFactor (w TEMP))))
              + w COD * (1 - Real.exp (-(0.05 * cfg.HRT * tempFactor (w TEMP))))
              + w NH4 * (1 - Real.exp (-(0.03 * cfg.HRT * tempFactor (w TEMP)))) * 4.57)
              * 1.5 := by
      simp [MBR.simulate, Water.updateParameter, Function.update_apply,
        Water.getParameter, ite_apply]
    rw [hB, hC, hN, hD, clamp_eq_max]
    congr 1
    ring
  · have hB : ActiveSludgeProcess.simulate cfg w BOD
        = w BOD - w BOD * (1 - Real.exp (-(0.2 * cfg.HRT * tempFactor (w TEMP)))) := by
      simp [ActiveSludgeProcess.simulate, Water.updateParameter, Function.update_apply,
        Water.getParameter, ite_apply]
    have hN : ActiveSludgeProcess.simulate cfg w NH4
        = w NH4 - w NH4 * (1 - Real.exp (-(0.1 * cfg.HRT * tempFactor (w TEMP)))) := by
      simp [ActiveSludgeProcess.simulate, Water.updateParameter, Function.update_apply,
        Water.getParameter, ite_apply]
    have hD : ActiveSludgeProcess.simulate cfg w DO
        = if w DO - (w BOD * (1 - Real.exp (-(0.2 * cfg.HRT * tempFactor (w TEMP))))
              + w NH4 * (1 - Real.exp (-(0.1 * cfg.HRT * tempFactor (w TEMP)))) * 4.57) * 1.5
              < 0
          then 0
          else w DO - (w BOD * (1 - Real.exp (-(0.2 * cfg.HRT * tempFactor (w TEMP))))
              + w NH4 * (1 - Real.exp (-(0.1 * cfg.HRT * tempFactor (w TEMP)))) * 4.57)
              * 1.5 := by
      simp [ActiveSludgeProcess.simulate, Water.updateParameter, Function.update_apply,
        Water.getParameter, ite_apply]
    rw [hB, hN, hD, clamp_eq_max]
    congr 1
    ring
  · simp [NitrificationTank.simulate, Water.updateParameter, Function.update_apply,
      Water.getParameter]

/-- C6: for every kinetic-family unit, if the inlet sample is non-negative the
outlet dissolved oxygen is non-negative — the five oxygen-consuming units clamp
the debit at zero, and the Nitrification Tank passes DO through unchanged. -/
theorem kinetic_do_nonneg (cfg : UnitConfig) (w : Water) (hw : ∀ p, 0 ≤ w p) :
    0 ≤ AerationTank.simulate cfg w DO
      ∧ 0 ≤ Biofilter.simulate cfg w DO
      ∧ 0 ≤ AnaerobicAerobicFilter.simulate cfg w DO
      ∧ 0 ≤ MBR.simulate cfg w DO
      ∧ 0 ≤ ActiveSludgeProcess.simulate cfg w DO
      ∧ 0 ≤ NitrificationTank.simulate cfg w DO := by
  refine ⟨?_, ?_, ?_, ?_, ?_, ?_⟩
  · simp only [AerationTank.simulate, ite_apply, Water.getParameter, updateParameter_self]
    exact clamp_nonneg _
  · simp only [Biofilter.simulate, ite_apply, Water.getParameter, updateParameter_self]
    exact clamp_nonneg _
  · simp only [AnaerobicAerobicFilter.simulate, ite_apply, Water.getParameter,
      updateParameter_self]
    exact clamp_nonneg _
  · simp only [MBR.simulate, ite_apply, Water.getParameter, updateParameter_self]
    exact clamp_nonneg _
  · simp [ActiveSludgeProcess.simulate, Water.updateParameter, Function.update_apply,
      Water.getParameter, ite_apply]
    split_ifs with h
    · exact le_refl 0
    · exact sub_nonneg.mpr (not_lt.mp h)
  · have h : NitrificationTank.simulate cfg w DO = w DO := by
      simp [NitrificationTank.simulate, Water.updateParameter, Function.update_apply,
        Water.getParameter]
    rw [h]
    exact hw DO

/-- Witness for C6 at the default config and the default (non-negative) water. -/
theorem kinetic_do_nonneg_witness :
    0 ≤ AerationTank.simulate defaultConfig defaultWater DO :=
  (kinetic_do_nonneg defaultConfig defaultWater defaultWater_nonneg).1

/-- C9: every transfer function starts from a copy of the inlet and writes only
its targeted parameters, so every parameter a unit does not target is left
exactly equal to its inlet value, for every unit type. -/
theorem untargeted_parameters_preserved (cfg : UnitConfig) (w : Water) :
    (∀ p, p ∉ [TSS, OIL, TURBIDITY] → PrimaryClarifier.simulate cfg w p = w p)
      ∧ (∀ p, p ∉ [METALS, TSS, PH, EC] → ElectrocoagulationUnit.simulate cfg w p = w p)
      ∧ (∀ p, p ∉ [TSS, TURBIDITY] → Filtration.simulate cfg w p = w p)
      ∧ (∀ p, p ∉ [BOD, COD, NH4, NO3, DO] → AnaerobicAerobicFilter.simulate cfg w p = w p)
      ∧ (∀ p, p ∉ [PATHOGENS, COD, TSS] → OzoneDisinfection.simulate cfg w p = w p)
      ∧ (∀ p, p ∉ [BOD, COD, NH4, NO3, DO] → MBR.simulate cfg w p = w p)
      ∧ (∀ p, p ∉ [BOD, COD, NH4, NO3, DO] → Biofilter.simulate cfg w p = w p)
      ∧ (∀ p, p ∉ [TSS, BOD, TURBIDITY, PATHOGENS] → PrimarySedimentationTank.simulate cfg w p = w p)
      ∧ (∀ p, p ∉ [BOD, NH4, NO3, DO] → AerationTank.simulate cfg w p = w p)
      ∧ (∀ p, p ∉ [TSS, TURBIDITY] → SecondaryClarifier.simulate cfg w p = w p)
      ∧ (∀ p, p ∉ [PATHOGENS, RESIDUAL_CHLORINE, CHLORIDES] → ChlorineDisinfectionUnit.simulate cfg w p = w p)
      ∧ (∀ p, p ∉ [NH4, NO3, ALKALINITY] → NitrificationTank.simulate cfg w p = w p)
      ∧ (∀ p, p ∉ [PATHOGENS] → UVDisinfection.simulate cfg w p = w p)
      ∧ (∀ p, p ∉ [COD] → AnaerobicFilter.simulate cfg w p = w p)
      ∧ (∀ p, p ∉ [COD, TSS] → CoagulationFlocculation.simulate cfg w p = w p)
      ∧ (∀ p, p ∉ [COD, TSS, PATHOGENS] → MembraneFiltration.simulate cfg w p = w p)
      ∧ (∀ p, p ∉ [COD, TURBIDITY] → ChemicalOxidation.simulate cfg w p = w p)
      ∧ (∀ p, p ∉ [BOD, NH4, NO3, DO, COD] → ActiveSludgeProcess.simulate cfg w p = w p)
      ∧ (∀ p, p ∉ [TSS] → SludgeDigester.simulate cfg w p = w p)
      ∧ (∀ p, p ∉ [OIL, TURBIDITY] → OilSeparator.simulate cfg w p = w p)
      ∧ (∀ p, p ∉ [P, TSS] → PhosphorusRemovalUnit.simulate cfg w p = w p)
      ∧ (∀ p, p ∉ [TSS] → DryingBed.simulate cfg w p = w p)
      ∧ (∀ p, Pump.simulate cfg w p = w p)
      ∧ (∀ p, FlowMeter.simulate cfg w p = w p)
      ∧ (∀ p, p ∉ [HARDNESS] → WaterSoftener.simulate cfg w p = w p)
      ∧ (∀ p, p ∉ [COD] → ActivatedCarbonFilter.simulate cfg w p = w p)
      ∧ (∀ p, p ∉ [TEMP] → HeatExchanger.simulate cfg w p = w p)
      ∧ (∀ p, p ∉ [METALS] → MetalsRemovalUnit.simulate cfg w p = w p)
      ∧ (∀ p, p ∉ [PATHOGENS, TSS] → MembraneFiltrationUnit.simulate cfg w p = w p)
      ∧ (∀ p, p ∉ [SALINITY, EC] → ReverseOsmosisUnit.simulate cfg w p = w p) := by
  refine ⟨?_, ?_, ?_, ?_, ?_, ?_, ?_, ?_, ?_, ?_, ?_, ?_, ?_, ?_, ?_, ?_, ?_, ?_, ?_, ?_, ?_, ?_, ?_, ?_, ?_, ?_, ?_, ?_, ?_, ?_⟩
  · intro p hp
    simp only [List.mem_cons, List.mem_nil_iff, or_false, not_or] at hp
    obtain ⟨h1, h2, h3⟩ := hp
    simp [PrimaryClarifier.simulate, Water.updateParameter, Water.getParameter, ite_apply,
      Function.update_noteq h1, Function.update_noteq h2, Function.update_noteq h3]
  · intro p hp
    simp only [List.mem_cons, List.mem_nil_iff, or_false, not_or] at hp
    obtain ⟨h1, h2, h3, h4⟩ := hp
    simp [ElectrocoagulationUnit.simulate, Water.updateParameter, Water.getParameter, ite_apply,
      Function.update_noteq h1, Function.update_noteq h2, Function.update_noteq h3, Function.update_noteq h4]
  · intro p hp
    simp only [List.mem_cons, List.mem_nil_iff, or_false, not_or] at hp
    obtain ⟨h1, h2⟩ := hp
    simp [Filtration.simulate, Water.updateParameter, Water.getParameter, ite_apply,
      Function.update_noteq h1, Function.update_noteq h2]
  · intro p hp
    simp only [List.mem_cons, List.mem_nil_iff, or_false, not_or] at hp
    obtain ⟨h1, h2, h3, h4, h5⟩ := hp
    simp [AnaerobicAerobicFilter.simulate, Water.updateParameter, Water.getParameter, ite_apply,
      Function.update_noteq h1, Function.update_noteq h2, Function.update_noteq h3, Function.update_noteq h4, Function.update_noteq h5]
  · intro p hp
    simp only [List.mem_cons, List.mem_nil_iff, or_false, not_or] at hp
    obtain ⟨h1, h2, h3⟩ := hp
    simp [OzoneDisinfection.simulate, Water.updateParameter, Water.getParameter, ite_apply,
      Function.update_noteq h1, Function.update_noteq h2, Function.update_noteq h3]
  · intro p hp
    simp only [List.mem_cons, List.mem_nil_iff, or_false, not_or] at hp
    obtain ⟨h1, h2, h3, h4, h5⟩ := hp
    simp [MBR.simulate, Water.updateParameter, Water.getParameter, ite_apply,
      Function.update_noteq h1, Function.update_noteq h2, Function.update_noteq h3, Function.update_noteq h4, Function.update_noteq h5]
  · intro p hp
    simp only [List.mem_cons, List.mem_nil_iff, or_false, not_or] at hp
    obtain ⟨h1, h2, h3, h4, h5⟩ := hp
    simp [Biofilter.simulate, Water.updateParameter, Water.getParameter, ite_apply,
      Function.update_noteq h1, Function.update_noteq h2, Function.update_noteq h3, Function.update_noteq h4, Function.update_noteq h5]
  · intro p hp
    simp only [List.mem_cons, List.mem_nil_iff, or_false, not_or] at hp
    obtain ⟨h1, h2, h3, h4⟩ := hp
    simp [PrimarySedimentationTank.simulate, Water.updateParameter, Water.getParameter, ite_apply,
      Function.update_noteq h1, Function.update_noteq h2, Function.update_noteq h3, Function.update_noteq h4]
  · intro p hp
    simp only [List.mem_cons, List.mem_nil_iff, or_false, not_or] at hp
    obtain ⟨h1, h2, h3, h4⟩ := hp
    simp [AerationTank.simulate, Water.updateParameter, Water.getParameter, ite_apply,
      Function.update_noteq h1, Function.update_noteq h2, Function.update_noteq h3, Function.update_noteq h4]
  · intro p hp
    simp only [List.mem_cons, List.mem_nil_iff, or_false, not_or] at hp
    obtain ⟨h1, h2⟩ := hp
    simp [SecondaryClarifier.simulate, Water.updateParameter, Water.getParameter, ite_apply,
      Function.update_noteq h1, Function.update_noteq h2]
  · intro p hp
    simp only [List.mem_cons, List.mem_nil_iff, or_false, not_or] at hp
    obtain ⟨h1, h2, h3⟩ := hp
    simp [ChlorineDisinfectionUnit.simulate, Water.updateParameter, Water.getParameter, ite_apply,
      Function.update_noteq h1, Function.update_noteq h2, Function.update_noteq h3]
  · intro p hp
    simp only [List.mem_cons, List.mem_nil_iff, or_false, not_or] at hp
    obtain ⟨h1, h2, h3⟩ := hp
    simp [NitrificationTank.simulate, Water.updateParameter, Water.getParameter, ite_apply,
      Function.update_noteq h1, Function.update_noteq h2, Function.update_noteq h3]
  · intro p hp
    simp only [List.mem_cons, List.mem_nil_iff, or_false, not_or] at hp
    simp [UVDisinfection.simulate, Water.updateParameter, Water.getParameter, ite_apply,
      Function.update_noteq hp]
  · intro p hp
    simp only [List.mem_cons, List.mem_nil_iff, or_false, not_or] at hp
    simp [AnaerobicFilter.simulate, Water.updateParameter, Water.getParameter, ite_apply,
      Function.update_noteq hp]
  · intro p hp
    simp only [List.mem_cons, List.mem_nil_iff, or_false, not_or] at hp
    obtain ⟨h1, h2⟩ := hp
    simp [CoagulationFlocculation.simulate, Water.updateParameter, Water.getParameter, ite_apply,
      Function.update_noteq h1, Function.update_noteq h2]
  · intro p hp
    simp only [List.mem_cons, List.mem_nil_iff, or_false, not_or] at hp
    obtain ⟨h1, h2, h3⟩ := hp
    simp [MembraneFiltration.simulate, Water.updateParameter, Water.getParameter, ite_apply,
      Function.update_noteq h1, Function.update_noteq h2, Function.update_noteq h3]
  · intro p hp
    simp only [List.mem_cons, List.mem_nil_iff, or_false, not_or] at hp
    obtain ⟨h1, h2⟩ := hp
    simp [ChemicalOxidation.simulate, Water.updateParameter, Water.getParameter, ite_apply,
      Function.update_noteq h1, Function.update_noteq h2]
  · intro p hp
    simp only [List.mem_cons, List.mem_nil_iff, or_false, not_or] at hp
    obtain ⟨h1, h2, h3, h4, h5⟩ := hp
    simp [ActiveSludgeProcess.simulate, Water.updateParameter, Water.getParameter, ite_apply,
      Function.update_noteq h1, Function.update_noteq h2, Function.update_noteq h3, Function.update_noteq h4, Function.update_noteq h5]
  · intro p hp
    simp only [List.mem_cons, List.mem_nil_iff, or_false, not_or] at hp
    simp [SludgeDigester.simulate, Water.updateParameter, Water.getParameter, ite_apply,
      Function.update_noteq hp]
  · intro p hp
    simp only [List.mem_cons, List.mem_nil_iff, or_false, not_or] at hp
    obtain ⟨h1, h2⟩ := hp
    simp [OilSeparator.simulate, Water.updateParameter, Water.getParameter, ite_apply,
      Function.update_noteq h1, Function.update_noteq h2]
  · intro p hp
    simp only [List.mem_cons, List.mem_nil_iff, or_false, not_or] at hp
    obtain ⟨h1, h2⟩ := hp
    simp [PhosphorusRemovalUnit.simulate, Water.updateParameter, Water.getParameter, ite_apply,
      Function.update_noteq h1, Function.update_noteq h2]
  · intro p hp
    simp only [List.mem_cons, List.mem_nil_iff, or_false, not_or] at hp
    simp [DryingBed.simulate, Water.updateParameter, Water.getParameter, ite_apply,
      Function.update_noteq hp]
  · intro p
    rfl
  · intro p
    rfl
  · intro p hp
    simp only [List.mem_cons, List.mem_nil_iff, or_false, not_or] at hp
    simp [WaterSoftener.simulate, Water.updateParameter, Water.getParameter, ite_apply,
      Function.update_noteq hp]
  · intro p hp
    simp only [List.mem_cons, List.mem_nil_iff, or_false, not_or] at hp
    simp [ActivatedCarbonFilter.simulate, Water.updateParameter, Water.getParameter, ite_apply,
      Function.update_noteq hp]
  · intro p hp
    simp only [List.mem_cons, List.mem_nil_iff, or_false, not_or] at hp
    simp [HeatExchanger.simulate, Water.updateParameter, Water.getParameter, ite_apply,
      Function.update_noteq hp]
  · intro p hp
    simp only [List.mem_cons, List.mem_nil_iff, or_false, not_or] at hp
    simp [MetalsRemovalUnit.simulate, Water.updateParameter, Water.getParameter, ite_apply,
      Function.update_noteq hp]
  · intro p hp
    simp only [List.mem_cons, List.mem_nil_iff, or_false, not_or] at hp
    obtain ⟨h1, h2⟩ := hp
    simp [MembraneFiltrationUnit.simulate, Water.updateParameter, Water.getParameter, ite_apply,
      Function.update_noteq h1, Function.update_noteq h2]
  · intro p hp
    simp only [List.mem_cons, List.mem_nil_iff, or_false, not_or] at hp
    obtain ⟨h1, h2⟩ := hp
    simp [ReverseOsmosisUnit.simulate, Water.updateParameter, Water.getParameter, ite_apply,
      Function.update_noteq h1, Function.update_noteq h2]

/-- Witness for C9: the Primary Clarifier leaves BOD (untargeted) unchanged on
the default water. -/
theorem untargeted_parameters_preserved_witness :
    PrimaryClarifier.simulate defaultConfig defaultWater BOD = defaultWater BOD :=
  (untargeted_parameters_preserved defaultConfig defaultWater).1 BOD (by decide)

/-- A parameter update keeps every entry non-negative as soon as the new value
is and the old map was non-negative away from the written key. -/
theorem updateParameter_nonneg_of_others {w : Water} {p : WaterParameter} {v : ℝ}
    (hw : ∀ r, r ≠ p → 0 ≤ w r) (hv : 0 ≤ v) (q : WaterParameter) :
    0 ≤ Water.updateParameter w p v q := by
  by_cases h : q = p
  · subst h; simpa [updateParameter_self] using hv
  · rw [updateParameter_other w p q v h]; exact hw q h

/-- C2 counterexample: the Nitrification Tank subtracts an absolute 0.5 from
alkalinity with no clamp, so the all-non-negative sample with alkalinity 0
produces a negative outlet concentration (-0.5 mg CaCO3/L). -/
theorem alkalinity_negative_counterexample :
    (∀ p, 0 ≤ lowAlkalinityWater p)
      ∧ NitrificationTank.simulate defaultConfig lowAlkalinityWater ALKALINITY < 0 := by
  constructor
  · intro p
    by_cases h : p = ALKALINITY
    · subst h
      simp only [lowAlkalinityWater, updateParameter_self]
      exact le_refl 0
    · simp only [lowAlkalinityWater]
      rw [updateParameter_other _ _ _ _ h]
      exact defaultWater_nonneg p
  · have hval : NitrificationTank.simulate defaultConfig lowAlkalinityWater ALKALINITY
        = lowAlkalinityWater ALKALINITY - 0.5 := by
      simp [NitrificationTank.simulate, Water.updateParameter, Function.update_apply,
        Water.getParameter]
    rw [hval]
    simp only [lowAlkalinityWater, updateParameter_self]
    norm_num

set_option maxHeartbeats 4000000 in
/-- C2 amended: for every unit type, a fully non-negative inlet sample (with a
non-negative configured HRT) yields a fully non-negative outlet sample, with
the single exception of the Nitrification Tank's alkalinity, which subtracts an
unclamped absolute 0.5 and therefore stays non-negative exactly when the inlet
alkalinity is at least 0.5. -/
theorem outlet_nonneg (cfg : UnitConfig) (w : Water) (hw : ∀ q, 0 ≤ w q)
    (hHRT : 0 ≤ cfg.HRT) :
    (∀ q, 0 ≤ PrimaryClarifier.simulate cfg w q)
      ∧ (∀ q, 0 ≤ ElectrocoagulationUnit.simulate cfg w q)
      ∧ (∀ q, 0 ≤ Filtration.simulate cfg w q)
      ∧ (∀ q, 0 ≤ AnaerobicAerobicFilter.simulate cfg w q)
      ∧ (∀ q, 0 ≤ OzoneDisinfection.simulate cfg w q)
      ∧ (∀ q, 0 ≤ MBR.simulate cfg w q)
      ∧ (∀ q, 0 ≤ Biofilter.simulate cfg w q)
      ∧ (∀ q, 0 ≤ PrimarySedimentationTank.simulate cfg w q)
      ∧ (∀ q, 0 ≤ AerationTank.simulate cfg w q)
      ∧ (∀ q, 0 ≤ SecondaryClarifier.simulate cfg w q)
      ∧ (∀ q, 0 ≤ ChlorineDisinfectionUnit.simulate cfg w q)
      ∧ ((∀ q, q ≠ ALKALINITY → 0 ≤ NitrificationTank.simulate cfg w q)
        ∧ (0.5 ≤ w ALKALINITY → 0 ≤ NitrificationTank.simulate cfg w ALKALINITY))
      ∧ (∀ q, 0 ≤ UVDisinfection.simulate cfg w q)
      ∧ (∀ q, 0 ≤ AnaerobicFilter.simulate cfg w q)
      ∧ (∀ q, 0 ≤ CoagulationFlocculation.simulate cfg w q)
      ∧ (∀ q, 0 ≤ MembraneFiltration.simulate cfg w q)
      ∧ (∀ q, 0 ≤ ChemicalOxidation.simulate cfg w q)
      ∧ (∀ q, 0 ≤ ActiveSludgeProcess.simulate cfg w q)
      ∧ (∀ q, 0 ≤ SludgeDigester.simulate cfg w q)
      ∧ (∀ q, 0 ≤ OilSeparator.simulate cfg w q)
      ∧ (∀ q, 0 ≤ PhosphorusRemovalUnit.simulate cfg w q)
      ∧ (∀ q, 0 ≤ DryingBed.simulate cfg w q)
      ∧ (∀ q, 0 ≤ Pump.simulate cfg w q)
      ∧ (∀ q, 0 ≤ FlowMeter.simulate cfg w q)
      ∧ (∀ q, 0 ≤ WaterSoftener.simulate cfg w q)
      ∧ (∀ q, 0 ≤ ActivatedCarbonFilter.simulate cfg w q)
      ∧ (∀ q, 0 ≤ HeatExchanger.simulate cfg w q)
      ∧ (∀ q, 0 ≤ MetalsRemovalUnit.simulate cfg w q)
      ∧ (∀ q, 0 ≤ MembraneFiltrationUnit.simulate cfg w q)
      ∧ (∀ q, 0 ≤ ReverseOsmosisUnit.simulate cfg w q) := by
  refine ⟨?_, ?_, ?_, ?_, ?_, ?_, ?_, ?_, ?_, ?_, ?_, ?_, ?_, ?_, ?_, ?_, ?_, ?_, ?_, ?_, ?_, ?_, ?_, ?_, ?_, ?_, ?_, ?_, ?_, ?_⟩
  · intro q
    simp only [PrimaryClarifier.simulate, Water.getParameter]
    exact (updateParameter_nonneg (updateParameter_nonneg (updateParameter_nonneg hw (by nlinarith [hw TSS])) (by nlinarith [hw OIL])) (by nlinarith [hw TURBIDITY])) q
  · intro q
    simp only [ElectrocoagulationUnit.simulate, Water.getParameter]
    exact (updateParameter_nonneg (updateParameter_nonneg (updateParameter_nonneg (updateParameter_nonneg hw (by nlinarith [hw METALS])) (by nlinarith [hw TSS])) (by linarith [hw PH])) (by linarith [hw EC])) q
  · intro q
    simp only [Filtration.simulate, Water.getParameter]
    exact (updateParameter_nonneg (updateParameter_nonneg hw (by nlinarith [hw TSS])) (by nlinarith [hw TURBIDITY])) q
  · intro q
    simp only [AnaerobicAerobicFilter.simulate, Water.getParameter, updateParameter_self]
    rw [ite_apply]
    split_ifs with hcl
    · refine updateParameter_nonneg_of_others ?_ (le_refl 0) q
      intro r hr
      rw [updateParameter_other _ _ _ _ hr]
      exact (updateParameter_nonneg (updateParameter_nonneg (updateParameter_nonneg (updateParameter_nonneg hw (by nlinarith [hw BOD, Real.exp_pos (-(0.2 * cfg.HRT * tempFactor (w TEMP)))])) (by nlinarith [hw COD, Real.exp_pos (-(0.1 * cfg.HRT * tempFactor (w TEMP)))])) (by nlinarith [hw NH4, Real.exp_pos (-(0.05 * cfg.HRT * tempFactor (w TEMP)))])) (by 
          have hEn : Real.exp (-(0.05 * cfg.HRT * tempFactor (w TEMP))) ≤ 1 :=
            exp_neg_le_one (mul_nonneg (mul_nonneg (by norm_num) hHRT) (tempFactor_pos _).le)
          linarith [hw NO3, removal_nonneg (hw NH4) hEn])) r
    · exact (updateParameter_nonneg (updateParameter_nonneg (updateParameter_nonneg (updateParameter_nonneg (updateParameter_nonneg hw (by nlinarith [hw BOD, Real.exp_pos (-(0.2 * cfg.HRT * tempFactor (w TEMP)))])) (by nlinarith [hw COD, Real.exp_pos (-(0.1 * cfg.HRT * tempFactor (w TEMP)))])) (by nlinarith [hw NH4, Real.exp_pos (-(0.05 * cfg.HRT * tempFactor (w TEMP)))])) (by 
          have hEn : Real.exp (-(0.05 * cfg.HRT * tempFactor (w TEMP))) ≤ 1 :=
            exp_neg_le_one (mul_nonneg (mul_nonneg (by norm_num) hHRT) (tempFactor_pos _).le)
          linarith [hw NO3, removal_nonneg (hw NH4) hEn])) (not_lt.mp hcl)) q
  · intro q
    simp only [OzoneDisinfection.simulate, Water.getParameter]
    exact (updateParameter_nonneg (updateParameter_nonneg (updateParameter_nonneg hw (by nlinarith [hw PATHOGENS])) (by nlinarith [hw COD])) (by nlinarith [hw TSS])) q
  · intro q
    simp only [MBR.simulate, Water.getParameter, updateParameter_self]
    rw [ite_apply]
    split_ifs with hcl
    · refine updateParameter_nonneg_of_others ?_ (le_refl 0) q
      intro r hr
      rw [updateParameter_other _ _ _ _ hr]
      exact (updateParameter_nonneg (updateParameter_nonneg (updateParameter_nonneg (updateParameter_nonneg hw (by nlinarith [hw BOD, Real.exp_pos (-(0.1 * cfg.HRT * tempFactor (w TEMP)))])) (by nlinarith [hw COD, Real.exp_pos (-(0.05 * cfg.HRT * tempFactor (w TEMP)))])) (by nlinarith [hw NH4, Real.exp_pos (-(0.03 * cfg.HRT * tempFactor (w TEMP)))])) (by 
          have hEn : Real.exp (-(0.03 * cfg.HRT * tempFactor (w TEMP))) ≤ 1 :=
            exp_neg_le_one (mul_nonneg (mul_nonneg (by norm_num) hHRT) (tempFactor_pos _).le)
          linarith [hw NO3, removal_nonneg (hw NH4) hEn])) r
    · exact (updateParameter_nonneg (updateParameter_nonneg (updateParameter_nonneg (updateParameter_nonneg (updateParameter_nonneg hw (by nlinarith [hw BOD, Real.exp_pos (-(0.1 * cfg.HRT * tempFactor (w TEMP)))])) (by nlinarith [hw COD, Real.exp_pos (-(0.05 * cfg.HRT * tempFactor (w TEMP)))])) (by nlinarith [hw NH4, Real.exp_pos (-(0.03 * cfg.HRT * tempFactor (w TEMP)))])) (by 
          have hEn : Real.exp (-(0.03 * cfg.HRT * tempFactor (w TEMP))) ≤ 1 :=
            exp_neg_le_one (mul_nonneg (mul_nonneg (by norm_num) hHRT) (tempFactor_pos _).le)
          linarith [hw NO3, removal_nonneg (hw NH4) hEn])) (not_lt.mp hcl)) q
  · intro q
    simp only [Biofilter.simulate, Water.getParameter, updateParameter_self]
    rw [ite_apply]
    split_ifs with hcl
    · refine updateParameter_nonneg_of_others ?_ (le_refl 0) q
      intro r hr
      rw [updateParameter_other _ _ _ _ hr]
      exact (updateParameter_nonneg (updateParameter_nonneg (updateParameter_nonneg (updateParameter_nonneg hw (by nlinarith [hw BOD, Real.exp_pos (-(0.2 * cfg.HRT * tempFactor (w TEMP)))])) (by nlinarith [hw COD, Real.exp_pos (-(0.1 * cfg.HRT * tempFactor (w TEMP)))])) (by nlinarith [hw NH4, Real.exp_pos (-(0.05 * cfg.HRT * tempFactor (w TEMP)))])) (by 
          have hEn : Real.exp (-(0.05 * cfg.HRT * tempFactor (w TEMP))) ≤ 1 :=
            exp_neg_le_one (mul_nonneg (mul_nonneg (by norm_num) hHRT) (tempFactor_pos _).le)
          linarith [hw NO3, removal_nonneg (hw NH4) hEn])) r
    · exact (updateParameter_nonneg (updateParameter_nonneg (updateParameter_nonneg (updateParameter_nonneg (updateParameter_nonneg hw (by nlinarith [hw BOD, Real.exp_pos (-(0.2 * cfg.HRT * tempFactor (w TEMP)))])) (by nlinarith [hw COD, Real.exp_pos (-(0.1 * cfg.HRT * tempFactor (w TEMP)))])) (by nlinarith [hw NH4, Real.exp_pos (-(0.05 * cfg.HRT * tempFactor (w TEMP)))])) (by 
          have hEn : Real.exp (-(0.05 * cfg.HRT * tempFactor (w TEMP))) ≤ 1 :=
            exp_neg_le_one (mul_nonneg (mul_nonneg (by norm_num) hHRT) (tempFactor_pos _).le)
          linarith [hw NO3, removal_nonneg (hw NH4) hEn])) (not_lt.mp hcl)) q
  · intro q
    simp only [PrimarySedimentationTank.simulate, Water.getParameter]
    exact (updateParameter_nonneg (updateParameter_nonneg (updateParameter_nonneg (updateParameter_nonneg hw (by nlinarith [hw TSS])) (by nlinarith [hw BOD])) (by nlinarith [hw TURBIDITY])) (by nlinarith [hw PATHOGENS])) q
  · intro q
    simp only [AerationTank.simulate, Water.getParameter, updateParameter_self]
    rw [ite_apply]
    split_ifs with hcl
    · refine updateParameter_nonneg_of_others ?_ (le_refl 0) q
      intro r hr
      rw [updateParameter_other _ _ _ _ hr]
      exact (updateParameter_nonneg (updateParameter_nonneg (updateParameter_nonneg hw (by nlinarith [hw BOD, Real.exp_pos (-(0.2 * cfg.HRT * tempFactor (w TEMP)))])) (by nlinarith [hw NH4, Real.exp_pos (-(0.1 * cfg.HRT * tempFactor (w TEMP)))])) (by 
          have hEn : Real.exp (-(0.1 * cfg.HRT * tempFactor (w TEMP))) ≤ 1 :=
            exp_neg_le_one (mul_nonneg (mul_nonneg (by norm_num) hHRT) (tempFactor_pos _).le)
          linarith [hw NO3, removal_nonneg (hw NH4) hEn])) r
    · exact (updateParameter_nonneg (updateParameter_nonneg (updateParameter_nonneg (updateParameter_nonneg hw (by nlinarith [hw BOD, Real.exp_pos (-(0.2 * cfg.HRT * tempFactor (w TEMP)))])) (by nlinarith [hw NH4, Real.exp_pos (-(0.1 * cfg.HRT * tempFactor (w TEMP)))])) (by 
          have hEn : Real.exp (-(0.1 * cfg.HRT * tempFactor (w TEMP))) ≤ 1 :=
            exp_neg_le_one (mul_nonneg (mul_nonneg (by norm_num) hHRT) (tempFactor_pos _).le)
          linarith [hw NO3, removal_nonneg (hw NH4) hEn])) (not_lt.mp hcl)) q
  · intro q
    simp only [SecondaryClarifier.simulate, Water.getParameter]
    exact (updateParameter_nonneg (updateParameter_nonneg hw (by nlinarith [hw TSS])) (by nlinarith [hw TURBIDITY])) q
  · intro q
    simp only [ChlorineDisinfectionUnit.simulate, Water.getParameter]
    exact (updateParameter_nonneg (updateParameter_nonneg (updateParameter_nonneg hw (by nlinarith [hw PATHOGENS])) (by norm_num)) (by nlinarith [hw CHLORIDES])) q
  · constructor
    · intro q hq
      simp only [NitrificationTank.simulate, Water.getParameter]
      rw [updateParameter_other _ _ _ _ hq]
      exact (updateParameter_nonneg (updateParameter_nonneg hw (by nlinarith [hw NH4, Real.exp_pos (-(0.1 * cfg.HRT * tempFactor (w TEMP)))])) (by 
          have hEn : Real.exp (-(0.1 * cfg.HRT * tempFactor (w TEMP))) ≤ 1 :=
            exp_neg_le_one (mul_nonneg (mul_nonneg (by norm_num) hHRT) (tempFactor_pos _).le)
          linarith [hw NO3, removal_nonneg (hw NH4) hEn])) q
    · intro halk
      simp only [NitrificationTank.simulate, Water.getParameter, updateParameter_self]
      linarith
  · intro q
    simp only [UVDisinfection.simulate, Water.getParameter]
    exact (updateParameter_nonneg hw (by nlinarith [hw PATHOGENS])) q
  · intro q
    simp only [AnaerobicFilter.simulate, Water.getParameter]
    exact (updateParameter_nonneg hw (by nlinarith [hw COD])) q
  · intro q
    simp only [CoagulationFlocculation.simulate, Water.getParameter]
    exact (updateParameter_nonneg (updateParameter_nonneg hw (by nlinarith [hw COD])) (by nlinarith [hw TSS])) q
  · intro q
    simp only [MembraneFiltration.simulate, Water.getParameter]
    exact (updateParameter_nonneg (updateParameter_nonneg (updateParameter_nonneg hw (by nlinarith [hw COD])) (by nlinarith [hw TSS])) (by nlinarith [hw PATHOGENS])) q
  · intro q
    simp only [ChemicalOxidation.simulate, Water.getParameter]
    exact (updateParameter_nonneg (updateParameter_nonneg hw (by nlinarith [hw COD])) (by nlinarith [hw TURBIDITY])) q
  · intro q
    simp only [ActiveSludgeProcess.simulate, Water.getParameter, updateParameter_self]
    refine updateParameter_nonneg ?_ (by nlinarith [hw COD]) q
    intro r0
    rw [ite_apply]
    split_ifs with hcl
    · refine updateParameter_nonneg_of_others ?_ (le_refl 0) r0
      intro r hr
      rw [updateParameter_other _ _ _ _ hr]
      exact (updateParameter_nonneg (updateParameter_nonneg (updateParameter_nonneg hw (by nlinarith [hw BOD, Real.exp_pos (-(0.2 * cfg.HRT * tempFactor (w TEMP)))])) (by nlinarith [hw NH4, Real.exp_pos (-(0.1 * cfg.HRT * tempFactor (w TEMP)))])) (by 
          have hEn : Real.exp (-(0.1 * cfg.HRT * tempFactor (w TEMP))) ≤ 1 :=
            exp_neg_le_one (mul_nonneg (mul_nonneg (by norm_num) hHRT) (tempFactor_pos _).le)
          linarith [hw NO3, removal_nonneg (hw NH4) hEn])) r
    · exact (updateParameter_nonneg (updateParameter_nonneg (updateParameter_nonneg (updateParameter_nonneg hw (by nlinarith [hw BOD, Real.exp_pos (-(0.2 * cfg.HRT * tempFactor (w TEMP)))])) (by nlinarith [hw NH4, Real.exp_pos (-(0.1 * cfg.HRT * tempFactor (w TEMP)))])) (by 
          have hEn : Real.exp (-(0.1 * cfg.HRT * tempFactor (w TEMP))) ≤ 1 :=
            exp_neg_le_one (mul_nonneg (mul_nonneg (by norm_num) hHRT) (tempFactor_pos _).le)
          linarith [hw NO3, removal_nonneg (hw NH4) hEn])) (not_lt.mp hcl)) r0
  · intro q
    simp only [SludgeDigester.simulate, Water.getParameter]
    exact (updateParameter_nonneg hw (by nlinarith [hw TSS])) q
  · intro q
    simp only [OilSeparator.simulate, Water.getParameter]
    exact (updateParameter_nonneg (updateParameter_nonneg hw (by nlinarith [hw OIL])) (by nlinarith [hw TURBIDITY])) q
  · intro q
    simp only [PhosphorusRemovalUnit.simulate, Water.getParameter]
    exact (updateParameter_nonneg (updateParameter_nonneg hw (by nlinarith [hw P])) (by nlinarith [hw TSS, hw P])) q
  · intro q
    simp only [DryingBed.simulate, Water.getParameter]
    exact (updateParameter_nonneg hw (by nlinarith [hw TSS])) q
  · intro q
    exact hw q
  · intro q
    exact hw q
  · intro q
    simp only [WaterSoftener.simulate, Water.getParameter]
    exact (updateParameter_nonneg hw (by nlinarith [hw HARDNESS])) q
  · intro q
    simp only [ActivatedCarbonFilter.simulate, Water.getParameter]
    exact (updateParameter_nonneg hw (by nlinarith [hw COD])) q
  · intro q
    simp only [HeatExchanger.simulate, Water.getParameter]
    exact (updateParameter_nonneg hw (by norm_num)) q
  · intro q
    simp only [MetalsRemovalUnit.simulate, Water.getParameter]
    exact (updateParameter_nonneg hw (by nlinarith [hw METALS])) q
  · intro q
    simp only [MembraneFiltrationUnit.simulate, Water.getParameter]
    exact (updateParameter_nonneg (updateParameter_nonneg hw (by nlinarith [hw PATHOGENS])) (by nlinarith [hw TSS])) q
  · intro q
    simp only [ReverseOsmosisUnit.simulate, Water.getParameter]
    exact (updateParameter_nonneg (updateParameter_nonneg hw (by nlinarith [hw SALINITY])) (by nlinarith [hw EC])) q

/-- Witness for C2 at the default configuration and default water. -/
theorem outlet_nonneg_witness :
    0 ≤ PrimaryClarifier.simulate defaultConfig defaultWater BOD :=
  (outlet_nonneg defaultConfig defaultWater defaultWater_nonneg
    (by norm_num [defaultConfig])).1 BOD
